import Mathlib

/-!
Shallow embedding of the core of the `ictagent` trading framework
(signal validation, session classification, instrument registry, backtest
orchestration, data cleaning) together with theorems settling the spec's
claims about it.  Prices and monetary quantities are modelled as exact
rationals; times of day as (hour, minute) pairs of naturals compared
lexicographically, exactly as Python `datetime.time` comparison behaves.
-/

namespace ICTAgent

/-- `SignalType` enum from `src/ictagent/core/base_strategy.py`. -/
inductive SignalType
  | BUY
  | SELL
  | CLOSE_LONG
  | CLOSE_SHORT
  | NONE
deriving DecidableEq, Repr

/-- `Signal` dataclass from `src/ictagent/core/base_strategy.py`.
The `timestamp` field is modelled as an integer tag (its value is never
inspected by the functions under study); floats are modelled as `ℚ`. -/
structure Signal where
  timestamp : ℤ := 0
  signal_type : SignalType
  price : ℚ
  stop_loss : Option ℚ := none
  take_profit : Option ℚ := none
  confidence : ℚ := 1
  reason : String := ""
deriving DecidableEq, Repr

/-- `RiskConfig` dataclass from `src/ictagent/core/base_strategy.py`,
with the source's default values. -/
structure RiskConfig where
  risk_per_trade : ℚ := 1/100
  max_positions : ℕ := 5
  max_daily_loss : ℚ := 5/100
  position_sizing_method : String := "percent_risk"
  commission : ℚ := 2
  slippage_ticks : ℚ := 1/2
  min_risk_reward : ℚ := 1
deriving DecidableEq, Repr

/-- `StrategyBase.validate_signal` from `src/ictagent/core/base_strategy.py`
lines 163-193.  The Python method also receives `data` and `current_bar`
arguments, but its body never reads them, so they are omitted here.
Structure mirrors the source exactly: no stop loss → `false`; for BUY/SELL
with a take profit, risk and reward are absolute differences and the
hard-coded ratio test `reward / risk >= 1.0` runs only when `risk > 0`;
every other path falls through to `true`. -/
def validate_signal (signal : Signal) : Bool :=
  match signal.stop_loss with
  | Option.none => false
  | Option.some sl =>
    if signal.signal_type = SignalType.BUY ∨ signal.signal_type = SignalType.SELL then
      match signal.take_profit with
      | Option.some tp =>
        let rr : ℚ × ℚ :=
          if signal.signal_type = SignalType.BUY then
            (|signal.price - sl|, |tp - signal.price|)
          else
            (|sl - signal.price|, |signal.price - tp|)
        if 0 < rr.1 then decide (rr.2 / rr.1 ≥ 1) else true
      | Option.none => true
    else true

/-- Time of day as an (hour, minute) pair. -/
abbrev TimeHM := ℕ × ℕ

/-- Lexicographic `≤` on times of day, as Python compares `datetime.time`. -/
def timeLe (a b : TimeHM) : Bool :=
  decide (a.1 < b.1 ∨ (a.1 = b.1 ∧ a.2 ≤ b.2))

/-- Lexicographic `<` on times of day. -/
def timeLt (a b : TimeHM) : Bool :=
  decide (a.1 < b.1 ∨ (a.1 = b.1 ∧ a.2 < b.2))

/-- Minutes-of-day reading of an (hour, minute) pair. -/
def toMin (a : TimeHM) : ℕ := a.1 * 60 + a.2

/-- `StrategyBase.get_session_filter` from `src/ictagent/core/base_strategy.py`
lines 195-213: the timestamp's time of day (already exchange-local per the
docstring) is compared with inclusive bounds on both ends in the normal case,
and with inclusive bounds on both disjuncts in the midnight-spanning case. -/
def get_session_filter (timestamp : TimeHM) (session_start session_end : TimeHM) : Bool :=
  let current_time := timestamp
  if timeLe session_start session_end then
    timeLe session_start current_time && timeLe current_time session_end
  else
    timeLe session_start current_time || timeLe current_time session_end

/-- A naive civil datetime (year, month, day, hour, minute), as validated by
Python's `datetime` constructor (month 1-12, day 1-31, hour < 24, minute < 60). -/
structure NaiveDT where
  year : ℕ
  month : ℕ
  day : ℕ
  hour : ℕ
  minute : ℕ
deriving DecidableEq, Repr

/-- Day-of-week by Zeller's congruence; result 1 means Sunday
(0 = Saturday, 2 = Monday, ...). -/
def zellerDow (y m d : ℕ) : ℕ :=
  let ym : ℕ × ℕ := if m ≤ 2 then (y - 1, m + 12) else (y, m)
  let K := ym.1 % 100
  let J := ym.1 / 100
  (d + (13 * (ym.2 + 1)) / 5 + K + K / 4 + J / 4 + 5 * J) % 7

/-- Day of month of the first Sunday of month `m` of year `y`. -/
def firstSundayOfMonth (y m : ℕ) : ℕ :=
  ((((List.range 7).map (fun d => d + 1)).find? (fun d => zellerDow y m d == 1)).getD 1)

/-- Day of month of the second Sunday of March (US DST start day since 2007). -/
def secondSundayOfMarch (y : ℕ) : ℕ := firstSundayOfMonth y 3 + 7

/-- Day of month of the first Sunday of November (US DST end day since 2007). -/
def firstSundayOfNovember (y : ℕ) : ℕ := firstSundayOfMonth y 11

/-- Mixed-radix key ordering (month, day, hour, minute) within a year;
agrees with lexicographic order on valid civil datetimes. -/
def dtKey (dt : NaiveDT) : ℕ :=
  ((dt.month * 32 + dt.day) * 24 + dt.hour) * 60 + dt.minute

/-- Whether US daylight-saving time is in effect at the UTC instant `dt`
(post-2007 rule, as the tz database applies for America/New_York on modern
dates): from the second Sunday of March 07:00 UTC (02:00 EST) up to, and
excluding, the first Sunday of November 06:00 UTC (02:00 EDT). -/
def isDSTat (dt : NaiveDT) : Bool :=
  let startKey := ((3 * 32 + secondSundayOfMarch dt.year) * 24 + 7) * 60
  let endKey := ((11 * 32 + firstSundayOfNovember dt.year) * 24 + 6) * 60
  decide (startKey ≤ dtKey dt ∧ dtKey dt < endKey)

/-- America/New_York wall-clock minutes-of-day of the UTC instant `dt`
(offset UTC-4 under DST, UTC-5 otherwise). -/
def utcToNYmin (dt : NaiveDT) : ℕ :=
  let off : ℕ := if isDSTat dt then 240 else 300
  (dt.hour * 60 + dt.minute + 1440 - off) % 1440

/-- America/New_York wall-clock (hour, minute) of the UTC instant `dt`. -/
def utcToNYHM (dt : NaiveDT) : TimeHM :=
  (utcToNYmin dt / 60, utcToNYmin dt % 60)

/-- A pandas `DatetimeIndex`: either timezone-naive, or timezone-aware.
Aware indexes are modelled with their instants given as UTC civil datetimes
(zone UTC), which is the case the spec's claims discuss. -/
inductive DTIndex
  | naive (stamps : List NaiveDT)
  | tzutc (stamps : List NaiveDT)
deriving DecidableEq, Repr

/-- The timezone handling of `SessionManager.in_time_window`
(`src/ictagent/core/sessions.py` lines 26-35): a naive index is
`tz_localize`d to America/New_York, so each stamp's own wall clock is kept
unchanged; an aware index is `tz_convert`ed, so each UTC instant is shifted
by the New York offset.  Returns the resulting local times of day. -/
def idx_est_times : DTIndex → List TimeHM
  | DTIndex.naive stamps => stamps.map (fun dt => (dt.hour, dt.minute))
  | DTIndex.tzutc stamps => stamps.map utcToNYHM

/-- `SessionManager.in_time_window` from `src/ictagent/core/sessions.py`
lines 13-44: boolean mask over the index, comparing each New York local time
of day against the window with an exclusive end bound, branching on whether
the window spans midnight. -/
def in_time_window (index : DTIndex) (start_hm end_hm : TimeHM) : List Bool :=
  let start_time := start_hm
  let end_time := end_hm
  let current_times := idx_est_times index
  if timeLe start_time end_time then
    current_times.map (fun t => timeLe start_time t && timeLt t end_time)
  else
    current_times.map (fun t => timeLe start_time t || timeLt t end_time)

/-- `SessionManager.premarket_session`: 02:00-07:00 EST. -/
def premarket_session (index : DTIndex) : List Bool :=
  in_time_window index (2, 0) (7, 0)

/-- `SessionManager.ny_open_session`: 09:30-10:00 EST. -/
def ny_open_session (index : DTIndex) : List Bool :=
  in_time_window index (9, 30) (10, 0)

/-- `SessionManager.ny_killzone`: 10:00-11:00 EST. -/
def ny_killzone (index : DTIndex) : List Bool :=
  in_time_window index (10, 0) (11, 0)

/-- `SessionManager.london_ny_overlap`: 08:00-11:00 EST. -/
def london_ny_overlap (index : DTIndex) : List Bool :=
  in_time_window index (8, 0) (11, 0)

/-- `SessionManager.power_hour`: 14:00-15:00 EST. -/
def power_hour (index : DTIndex) : List Bool :=
  in_time_window index (14, 0) (15, 0)

/-- `SessionManager.afternoon_session`: 13:00-16:00 EST. -/
def afternoon_session (index : DTIndex) : List Bool :=
  in_time_window index (13, 0) (16, 0)

/-- The names of `SessionManager.get_session_mask`'s `session_map`. -/
def session_names : List String :=
  ["premarket", "ny_open", "killzone", "london_ny", "power_hour", "afternoon"]

/-- `SessionManager.get_session_mask` from `src/ictagent/core/sessions.py`
lines 76-100: dispatch by name over the fixed registry; an unknown name
raises `ValueError`, modelled as `Except.error`. -/
def get_session_mask (index : DTIndex) (session : String) : Except String (List Bool) :=
  if session = "premarket" then Except.ok (premarket_session index)
  else if session = "ny_open" then Except.ok (ny_open_session index)
  else if session = "killzone" then Except.ok (ny_killzone index)
  else if session = "london_ny" then Except.ok (london_ny_overlap index)
  else if session = "power_hour" then Except.ok (power_hour index)
  else if session = "afternoon" then Except.ok (afternoon_session index)
  else Except.error ("Unknown session: " ++ session)

/-- `ensure_est_timezone` from `src/ictagent/utils/timezones.py` lines 9-27,
restricted to what the claims need: the New York local times of day of the
re-indexed frame.  A naive index is localized to UTC and then converted to
New York; an aware (UTC) index is converted directly. -/
def ensure_est_timezone : DTIndex → List TimeHM
  | DTIndex.naive stamps => stamps.map utcToNYHM
  | DTIndex.tzutc stamps => stamps.map utcToNYHM

/-- One OHLCV bar (a row of the DataFrame); prices as exact rationals.
`open_` stands for the source's `open` column (a reserved word in Lean). -/
structure Bar where
  open_ : ℚ
  high : ℚ
  low : ℚ
  close : ℚ
  volume : ℚ := 0
deriving DecidableEq, Repr

/-- `clean_data` from `src/ictagent/data/preprocess.py` lines 54-88: the four
row filters applied in source order — drop bars whose four prices are all
equal, keep strictly positive prices, keep `high ≥ low`, keep open and close
inside `[low, high]`. -/
def clean_data (df : List Bar) : List Bar :=
  let valid_bars := df.filter
    (fun b => !(decide (b.open_ = b.high) && decide (b.high = b.low) && decide (b.low = b.close)))
  let valid_prices := valid_bars.filter
    (fun b => decide (0 < b.open_) && decide (0 < b.high) && decide (0 < b.low) && decide (0 < b.close))
  let valid_hl := valid_prices.filter (fun b => decide (b.low ≤ b.high))
  valid_hl.filter
    (fun b => decide (b.low ≤ b.open_) && decide (b.open_ ≤ b.high) &&
              decide (b.low ≤ b.close) && decide (b.close ≤ b.high))

/-- Modelled from the spec: `InstrumentMeta` is imported by
`src/ictagent/core/trading_bot.py` but its defining module is not under
`src/`; fields follow §3 of the spec and the keyword arguments used by
`ICTTradingBot.INSTRUMENTS` (symbol, asset class, tick size, point value,
optional pip size and pip value per standard lot). -/
structure InstrumentMeta where
  symbol : String
  asset_class : String
  tick_size : ℚ
  point_value : ℚ
  pip : Option ℚ := none
  pip_value_per_standard_lot : Option ℚ := none
deriving DecidableEq, Repr

/-- `ICTTradingBot.INSTRUMENTS` from `src/ictagent/core/trading_bot.py`
lines 15-36: the predefined instrument table. -/
def INSTRUMENTS : List (String × InstrumentMeta) :=
  [("ES=F",
    { symbol := "ES=F", asset_class := "futures", tick_size := 1/4, point_value := 50 }),
   ("EURUSD=X",
    { symbol := "EURUSD=X", asset_class := "forex", tick_size := 1/100000, point_value := 1,
      pip := some (1/10000), pip_value_per_standard_lot := some 10 }),
   ("DX-Y.NYB",
    { symbol := "DX-Y.NYB", asset_class := "index", tick_size := 1/1000, point_value := 1000 })]

/-- The fallback metadata `ICTTradingBot.get_instrument_meta` builds for a
symbol absent from the table. -/
def default_instrument_meta (symbol : String) : InstrumentMeta :=
  { symbol := symbol, asset_class := "unknown", tick_size := 1/100, point_value := 1 }

/-- `ICTTradingBot.get_instrument_meta` from `src/ictagent/core/trading_bot.py`
lines 47-58: table lookup with a generic fallback; a total function — no
raising path exists. -/
def get_instrument_meta (symbol : String) : InstrumentMeta :=
  match INSTRUMENTS.lookup symbol with
  | Option.some meta => meta
  | Option.none => default_instrument_meta symbol

/-- Observable steps of `ICTTradingBot.backtest`, in the order the method
performs them: `load` is the `load_yfinance` call, `prepare s` is strategy
`s`'s `prepare` call, `execute s` is the engine run for `s`. -/
inductive BTEvent
  | load
  | prepare (strategy : String)
  | execute (strategy : String)
deriving DecidableEq, Repr

/-- `ICTTradingBot.backtest` from `src/ictagent/core/trading_bot.py`
lines 60-113, as a step trace over its collaborator calls.  Strategies are
identified by name; `dataset` stands for the frame `load_yfinance` returns
(that loader is an external I/O collaborator).  The method checks the
strategy list before loading (so no `load` event on that failure), loads,
checks `df.empty` before the per-strategy loop (so no `prepare`/`execute`
events on that failure), then prepares and executes each strategy in
registration order. -/
def backtest (strategies : List String) (dataset : List Bar) :
    Except String (List String) × List BTEvent :=
  if strategies = [] then
    (Except.error "No strategies added to bot", [])
  else if dataset = [] then
    (Except.error "No data loaded", [BTEvent.load])
  else
    (Except.ok strategies,
     BTEvent.load :: strategies.flatMap (fun s => [BTEvent.prepare s, BTEvent.execute s]))

/-- Modelled from the spec: `StrategyBase.calculate_position_size` is
declared abstract in `src/ictagent/core/base_strategy.py` lines 136-149 with
no body (and no concrete strategy implementation is under `src/`); §4.2 of
the spec is its contract.  `risk_amount = equity × risk_per_trade`; stop
distance `|price − stop|`; futures/index divide by distance in points times
point value; forex converts the distance to pips via the pip size and
divides by pips times pip value per standard lot; a missing stop or a
non-positive distance is a `SizingError`.  The spec's `size` contract also
passes the instrument, which the abstract Python signature omits. -/
def calculate_position_size (signal : Signal) (account_value : ℚ)
    (risk_config : RiskConfig) (meta : InstrumentMeta) : Except String ℚ :=
  match signal.stop_loss with
  | Option.none => Except.error "SizingError: signal has no stop loss"
  | Option.some sl =>
    let risk_amount := account_value * risk_config.risk_per_trade
    let stop_distance := |signal.price - sl|
    if stop_distance ≤ 0 then Except.error "SizingError: non-positive stop distance"
    else if meta.asset_class = "futures" ∨ meta.asset_class = "index" then
      Except.ok (risk_amount / (stop_distance * meta.point_value))
    else if meta.asset_class = "forex" then
      match meta.pip, meta.pip_value_per_standard_lot with
      | Option.some pip_size, Option.some pip_value =>
        Except.ok (risk_amount / ((stop_distance / pip_size) * pip_value))
      | _, _ => Except.error "SizingError: missing pip metadata"
    else
      Except.ok (risk_amount / (stop_distance * meta.point_value))

/-! ## Helper lemmas on time-of-day comparison -/

/-- On well-formed times (minute < 60) lexicographic `≤` agrees with
minutes-of-day `≤`. -/
theorem timeLe_eq_decide (a b : TimeHM) (ha : a.2 < 60) (hb : b.2 < 60) :
    timeLe a b = decide (toMin a ≤ toMin b) := by
  simp only [timeLe, toMin, decide_eq_decide]
  omega

/-- On well-formed times (minute < 60) lexicographic `<` agrees with
minutes-of-day `<`. -/
theorem timeLt_eq_decide (a b : TimeHM) (ha : a.2 < 60) (hb : b.2 < 60) :
    timeLt a b = decide (toMin a < toMin b) := by
  simp only [timeLt, toMin, decide_eq_decide]
  omega

/-- `timeLe` is reflexive. -/
theorem timeLe_refl (a : TimeHM) : timeLe a a = true := by
  simp [timeLe]

/-- `timeLt` is irreflexive. -/
theorem timeLt_irrefl (a : TimeHM) : timeLt a a = false := by
  simp [timeLt]

/-! ## Claim theorems -/

/-- C1 counterexample: the long entry signal with price 100, stop 102,
target 104 — whose side-aware risk 100 − 102 is negative — is reported
VALID by `validate_signal`, because the source computes risk and reward with
`abs`, contradicting the claim that it is invalid. -/
theorem C1_counterexample :
    validate_signal { signal_type := SignalType.BUY, price := 100,
                      stop_loss := some 102, take_profit := some 104 } = true := by
  norm_num [validate_signal]

/-- C1 (amended): `validate_signal` computes risk and reward as absolute
distances, so a non-positive side-aware risk does not invalidate a signal:
a BUY (resp. SELL) entry with stop and target is valid iff the absolute risk
is zero (ratio test skipped) or the ratio of absolute distances is at least
1; in particular the long 100/102/104 signal is reported valid. -/
theorem C1_amended_thm :
    (∀ p sl tp : ℚ,
        validate_signal { signal_type := SignalType.BUY, price := p,
                          stop_loss := some sl, take_profit := some tp } =
          (decide (|p - sl| = 0) || decide (|tp - p| / |p - sl| ≥ 1)))
    ∧ (∀ p sl tp : ℚ,
        validate_signal { signal_type := SignalType.SELL, price := p,
                          stop_loss := some sl, take_profit := some tp } =
          (decide (|sl - p| = 0) || decide (|p - tp| / |sl - p| ≥ 1)))
    ∧ validate_signal { signal_type := SignalType.BUY, price := 100,
                        stop_loss := some 102, take_profit := some 104 } = true := by
  refine ⟨?_, ?_, by norm_num [validate_signal]⟩
  · intro p sl tp
    rcases eq_or_ne (|p - sl|) 0 with h | h
    · simp [validate_signal, h]
    · have hpos : 0 < |p - sl| := lt_of_le_of_ne (abs_nonneg _) (Ne.symm h)
      simp [validate_signal, hpos, h]
  · intro p sl tp
    rcases eq_or_ne (|sl - p|) 0 with h | h
    · simp [validate_signal, h]
    · have hpos : 0 < |sl - p| := lt_of_le_of_ne (abs_nonneg _) (Ne.symm h)
      simp [validate_signal, hpos, h]

/-- C4 counterexample: with `min_risk_reward` configured to 2, the long
signal 100/98/103 has ratio 1.5 < 2, yet `validate_signal` reports it valid —
the source hard-codes the 1.0 threshold and never consults the
configuration, so "True iff ratio ≥ minimum_risk_reward (configurable)"
fails. -/
theorem C4_counterexample :
    validate_signal { signal_type := SignalType.BUY, price := 100,
                      stop_loss := some 98, take_profit := some 103 } = true
    ∧ ¬((103 - 100 : ℚ) / (100 - 98) ≥
         ({ min_risk_reward := 2 } : RiskConfig).min_risk_reward) := by
  constructor
  · norm_num [validate_signal]
  · norm_num

/-- C4 (amended): `validate_signal` returns `false` for every signal without
a stop price; for BUY/SELL entries with stop and target on the correct sides
it returns `true` iff reward/risk is at least the HARD-CODED threshold 1.0
(`RiskConfig.min_risk_reward` is not consulted); every signal with a stop but
no target is valid; and the long 100/98/104 example (ratio 2.0) is valid. -/
theorem C4_amended_thm :
    (∀ s : Signal, s.stop_loss = none → validate_signal s = false)
    ∧ (∀ p sl tp : ℚ, sl < p → p < tp →
        (validate_signal { signal_type := SignalType.BUY, price := p,
                           stop_loss := some sl, take_profit := some tp } = true
          ↔ (tp - p) / (p - sl) ≥ 1))
    ∧ (∀ p sl tp : ℚ, tp < p → p < sl →
        (validate_signal { signal_type := SignalType.SELL, price := p,
                           stop_loss := some sl, take_profit := some tp } = true
          ↔ (p - tp) / (sl - p) ≥ 1))
    ∧ (∀ s : Signal, s.stop_loss ≠ none → s.take_profit = none → validate_signal s = true)
    ∧ validate_signal { signal_type := SignalType.BUY, price := 100,
                        stop_loss := some 98, take_profit := some 104 } = true := by
  refine ⟨?_, ?_, ?_, ?_, by norm_num [validate_signal]⟩
  · intro s h
    simp [validate_signal, h]
  · intro p sl tp h1 h2
    have hr : 0 < p - sl := sub_pos.mpr h1
    have habs : |p - sl| = p - sl := abs_of_pos hr
    have habs2 : |tp - p| = tp - p := abs_of_pos (sub_pos.mpr h2)
    simp [validate_signal, habs, habs2, hr]
  · intro p sl tp h1 h2
    have hr : 0 < sl - p := sub_pos.mpr h2
    have habs : |sl - p| = sl - p := abs_of_pos hr
    have habs2 : |p - tp| = p - tp := abs_of_pos (sub_pos.mpr h1)
    simp [validate_signal, habs, habs2, hr]
  · intro s h1 h2
    obtain ⟨sl, hsl⟩ := Option.ne_none_iff_exists.mp h1
    simp [validate_signal, ← hsl, h2]

/-- C4 witness: the amended characterization applied at concrete inputs —
a stop-less signal is invalid, the 100/98/104 long reduces to its ratio
test, a 100/102/96 short reduces to its ratio test, and a stop-only signal
is valid. -/
theorem C4_witness :
    validate_signal { signal_type := SignalType.NONE, price := 1 } = false
    ∧ (validate_signal { signal_type := SignalType.BUY, price := 100,
                         stop_loss := some 98, take_profit := some 104 } = true
        ↔ ((104 : ℚ) - 100) / (100 - 98) ≥ 1)
    ∧ (validate_signal { signal_type := SignalType.SELL, price := 100,
                         stop_loss := some 102, take_profit := some 96 } = true
        ↔ ((100 : ℚ) - 96) / (102 - 100) ≥ 1)
    ∧ validate_signal { signal_type := SignalType.CLOSE_LONG, price := 50,
                        stop_loss := some 49 } = true :=
  ⟨C4_amended_thm.1 _ rfl,
   C4_amended_thm.2.1 100 98 104 (by norm_num) (by norm_num),
   C4_amended_thm.2.2.1 100 102 96 (by norm_num) (by norm_num),
   C4_amended_thm.2.2.2.1 _ (by simp) rfl⟩

/-- C8: `get_instrument_meta` is a total function (no raising path): a
symbol absent from `INSTRUMENTS` gets the generic fallback with asset class
"unknown", tick size 0.01 and point value 1.0, and a registered symbol gets
its stored metadata. -/
theorem C8_get_instrument_meta_total :
    (∀ symbol : String, INSTRUMENTS.lookup symbol = none →
        get_instrument_meta symbol =
          { symbol := symbol, asset_class := "unknown",
            tick_size := 1/100, point_value := 1 })
    ∧ (∀ (symbol : String) (meta : InstrumentMeta),
        INSTRUMENTS.lookup symbol = some meta →
        get_instrument_meta symbol = meta) := by
  constructor
  · intro s h
    simp [get_instrument_meta, h, default_instrument_meta]
  · intro s m h
    simp [get_instrument_meta, h]

/-- C8 witness: the unregistered symbol "AAPL" gets the fallback metadata
and the registered symbol "ES=F" gets its stored futures metadata. -/
theorem C8_witness :
    get_instrument_meta "AAPL" =
      { symbol := "AAPL", asset_class := "unknown",
        tick_size := 1/100, point_value := 1 }
    ∧ get_instrument_meta "ES=F" =
      { symbol := "ES=F", asset_class := "futures",
        tick_size := 1/4, point_value := 50 } :=
  ⟨C8_get_instrument_meta_total.1 "AAPL" (by rfl),
   C8_get_instrument_meta_total.2 "ES=F" _ (by rfl)⟩

/-- C7: `backtest` with zero registered strategies fails with no events at
all (in particular the dataset is never loaded), and with a non-empty
strategy list but an empty loaded dataset it fails with only the `load`
event — no strategy's `prepare` or `execute` step ever runs. -/
theorem C7_backtest_fail_fast :
    (∀ dataset : List Bar,
        (backtest [] dataset).1 = Except.error "No strategies added to bot"
        ∧ (backtest [] dataset).2 = [])
    ∧ (∀ strategies : List String, strategies ≠ [] →
        (backtest strategies []).1 = Except.error "No data loaded"
        ∧ (backtest strategies []).2 = [BTEvent.load]
        ∧ ∀ s : String, BTEvent.prepare s ∉ (backtest strategies []).2
            ∧ BTEvent.execute s ∉ (backtest strategies []).2) := by
  constructor
  · intro dataset
    simp [backtest]
  · intro strategies h
    simp [backtest, h]

/-- C7 witness: with the single strategy "ict" and an empty dataset, the
run fails after loading, and "ict"'s prepare and execute steps are absent
from the trace. -/
theorem C7_witness :
    (backtest ["ict"] []).1 = Except.error "No data loaded"
    ∧ (backtest ["ict"] []).2 = [BTEvent.load]
    ∧ BTEvent.prepare "ict" ∉ (backtest ["ict"] []).2
    ∧ BTEvent.execute "ict" ∉ (backtest ["ict"] []).2 :=
  ⟨(C7_backtest_fail_fast.2 ["ict"] (by simp)).1,
   (C7_backtest_fail_fast.2 ["ict"] (by simp)).2.1,
   ((C7_backtest_fail_fast.2 ["ict"] (by simp)).2.2 "ict").1,
   ((C7_backtest_fail_fast.2 ["ict"] (by simp)).2.2 "ict").2⟩

/-- C9: `get_session_mask` fails fast on every session name outside the
fixed registry, and for each of the six known names returns the membership
mask of that name's fixed window (e.g. ny_open = 09:30-10:00, killzone =
10:00-11:00 exchange time), never a silent constant. -/
theorem C9_get_session_mask_registry :
    (∀ (index : DTIndex) (session : String), session ∉ session_names →
        get_session_mask index session =
          Except.error ("Unknown session: " ++ session))
    ∧ (∀ index : DTIndex,
        get_session_mask index "premarket" = Except.ok (in_time_window index (2, 0) (7, 0))
        ∧ get_session_mask index "ny_open" = Except.ok (in_time_window index (9, 30) (10, 0))
        ∧ get_session_mask index "killzone" = Except.ok (in_time_window index (10, 0) (11, 0))
        ∧ get_session_mask index "london_ny" = Except.ok (in_time_window index (8, 0) (11, 0))
        ∧ get_session_mask index "power_hour" = Except.ok (in_time_window index (14, 0) (15, 0))
        ∧ get_session_mask index "afternoon" = Except.ok (in_time_window index (13, 0) (16, 0))) := by
  constructor
  · intro index session h
    simp only [session_names, List.mem_cons, List.not_mem_nil, or_false, not_or] at h
    obtain ⟨h1, h2, h3, h4, h5, h6⟩ := h
    simp [get_session_mask, h1, h2, h3, h4, h5, h6]
  · intro index
    refine ⟨rfl, rfl, rfl, rfl, rfl, rfl⟩

/-- C9 witness: the unknown name "lunch" is rejected with an error, and
"ny_open" yields the 09:30-10:00 mask, applied to a one-element index. -/
theorem C9_witness :
    get_session_mask (DTIndex.naive [⟨2023, 1, 16, 9, 45⟩]) "lunch" =
      Except.error ("Unknown session: " ++ "lunch")
    ∧ get_session_mask (DTIndex.naive [⟨2023, 1, 16, 9, 45⟩]) "ny_open" =
      Except.ok (in_time_window (DTIndex.naive [⟨2023, 1, 16, 9, 45⟩]) (9, 30) (10, 0)) :=
  ⟨C9_get_session_mask_registry.1 _ "lunch" (by simp [session_names]),
   (C9_get_session_mask_registry.2 (DTIndex.naive [⟨2023, 1, 16, 9, 45⟩])).2.1⟩

/-- C10: `clean_data` returns a row-subsequence of its input in which every
remaining bar has strictly positive prices, high at least low, open and close
within the low-high range, and is not a flat bar (open, high, low, close all
equal). -/
theorem C10_clean_data_invariants :
    ∀ df : List Bar,
      List.Sublist (clean_data df) df
      ∧ ∀ b ∈ clean_data df,
          (0 < b.open_ ∧ 0 < b.high ∧ 0 < b.low ∧ 0 < b.close)
          ∧ b.low ≤ b.high
          ∧ (b.low ≤ b.open_ ∧ b.open_ ≤ b.high ∧ b.low ≤ b.close ∧ b.close ≤ b.high)
          ∧ ¬(b.open_ = b.high ∧ b.high = b.low ∧ b.low = b.close) := by
  intro df
  constructor
  · simp only [clean_data]
    exact (List.filter_sublist _).trans ((List.filter_sublist _).trans
      ((List.filter_sublist _).trans (List.filter_sublist _)))
  · intro b hb
    simp only [clean_data, List.mem_filter] at hb
    obtain ⟨⟨⟨⟨_, h1⟩, h2⟩, h3⟩, h4⟩ := hb
    simp only [Bool.and_eq_true, decide_eq_true_iff, Bool.not_eq_eq_eq_not,
      Bool.not_true, Bool.and_eq_false_imp, decide_eq_false_iff_not] at h1 h2 h3 h4
    refine ⟨⟨h2.1.1.1, h2.1.1.2, h2.1.2, h2.2⟩, h3, ⟨h4.1.1.1, h4.1.1.2, h4.1.2, h4.2⟩, ?_⟩
    intro hflat
    rcases hflat with ⟨e1, e2, e3⟩
    revert h1
    simp [e1, e2, e3]

/-- C10 witness: on a concrete frame of one well-formed bar, one flat bar
and one bar with a non-positive price, the cleaned frame is a subsequence
and the surviving bar satisfies all the invariants. -/
theorem C10_witness :
    List.Sublist (clean_data [⟨10, 12, 9, 11, 0⟩, ⟨5, 5, 5, 5, 0⟩, ⟨-1, 2, -3, 1, 0⟩])
      [⟨10, 12, 9, 11, 0⟩, ⟨5, 5, 5, 5, 0⟩, ⟨-1, 2, -3, 1, 0⟩]
    ∧ ((0 < (10 : ℚ) ∧ 0 < (12 : ℚ) ∧ 0 < (9 : ℚ) ∧ 0 < (11 : ℚ))
        ∧ (9 : ℚ) ≤ 12
        ∧ ((9 : ℚ) ≤ 10 ∧ (10 : ℚ) ≤ 12 ∧ (9 : ℚ) ≤ 11 ∧ (11 : ℚ) ≤ 12)
        ∧ ¬((10 : ℚ) = 12 ∧ (12 : ℚ) = 9 ∧ (9 : ℚ) = 11)) :=
  ⟨(C10_clean_data_invariants [⟨10, 12, 9, 11, 0⟩, ⟨5, 5, 5, 5, 0⟩, ⟨-1, 2, -3, 1, 0⟩]).1,
   (C10_clean_data_invariants [⟨10, 12, 9, 11, 0⟩, ⟨5, 5, 5, 5, 0⟩, ⟨-1, 2, -3, 1, 0⟩]).2
     ⟨10, 12, 9, 11, 0⟩ (by norm_num [clean_data])⟩

/-- C6 (spec-modelled): position sizing computes
`risk_amount = equity × risk_per_trade` and converts to quantity by asset
class — futures/index divide by stop distance in points times point value,
forex divides by stop distance in pips times pip value per standard lot —
and the two spec scenarios yield 5 contracts and 5.0 standard lots. -/
theorem C6_calculate_position_size_formulas :
    (∀ (signal : Signal) (account_value : ℚ) (rc : RiskConfig)
        (meta : InstrumentMeta) (sl : ℚ),
        signal.stop_loss = some sl → signal.price ≠ sl →
        (meta.asset_class = "futures" ∨ meta.asset_class = "index") →
        calculate_position_size signal account_value rc meta =
          Except.ok ((account_value * rc.risk_per_trade) /
            (|signal.price - sl| * meta.point_value)))
    ∧ (∀ (signal : Signal) (account_value : ℚ) (rc : RiskConfig)
        (meta : InstrumentMeta) (sl ps pv : ℚ),
        signal.stop_loss = some sl → signal.price ≠ sl →
        meta.asset_class = "forex" → meta.pip = some ps →
        meta.pip_value_per_standard_lot = some pv →
        calculate_position_size signal account_value rc meta =
          Except.ok ((account_value * rc.risk_per_trade) /
            ((|signal.price - sl| / ps) * pv)))
    ∧ calculate_position_size
        { signal_type := SignalType.BUY, price := 4000, stop_loss := some 3996 }
        50000 { risk_per_trade := 2/100 } (get_instrument_meta "ES=F") =
        Except.ok 5
    ∧ calculate_position_size
        { signal_type := SignalType.BUY, price := 11/10, stop_loss := some (549/500) }
        100000 { risk_per_trade := 1/100 } (get_instrument_meta "EURUSD=X") =
        Except.ok 5 := by
  refine ⟨?_, ?_, ?_, ?_⟩
  · intro signal account_value rc meta sl hsl hne hclass
    have hpos : 0 < |signal.price - sl| := abs_pos.mpr (sub_ne_zero.mpr hne)
    have hnotle : ¬(|signal.price - sl| ≤ 0) := not_le.mpr hpos
    rcases hclass with h | h <;> simp [calculate_position_size, hsl, hnotle, h]
  · intro signal account_value rc meta sl ps pv hsl hne hclass hps hpv
    have hpos : 0 < |signal.price - sl| := abs_pos.mpr (sub_ne_zero.mpr hne)
    have hnotle : ¬(|signal.price - sl| ≤ 0) := not_le.mpr hpos
    simp [calculate_position_size, hsl, hnotle, hclass, hps, hpv]
  · have hmeta : get_instrument_meta "ES=F" =
        { symbol := "ES=F", asset_class := "futures",
          tick_size := 1/4, point_value := 50 } := rfl
    rw [hmeta]
    norm_num [calculate_position_size]
  · have hmeta : get_instrument_meta "EURUSD=X" =
        { symbol := "EURUSD=X", asset_class := "forex",
          tick_size := 1/100000, point_value := 1,
          pip := some (1/10000), pip_value_per_standard_lot := some 10 } := rfl
    rw [hmeta]
    norm_num [calculate_position_size]
    rw [if_neg (by decide), abs_of_pos (by norm_num : (0 : ℚ) < 1/500)]
    norm_num

/-- C6 witness: the futures formula applied to the spec's ES scenario
(equity 50000, risk 2%, stop distance 4 points, point value 50). -/
theorem C6_witness :
    calculate_position_size
      { signal_type := SignalType.BUY, price := 4000, stop_loss := some 3996 }
      50000 { risk_per_trade := 2/100 } (get_instrument_meta "ES=F") =
    Except.ok ((50000 * ((2 : ℚ)/100)) /
      (|(4000 : ℚ) - 3996| * (get_instrument_meta "ES=F").point_value)) :=
  C6_calculate_position_size_formulas.1 _ 50000 _ _ 3996 rfl (by norm_num) (Or.inl rfl)

/-- C5: `in_time_window` returns per timestamp exactly `start ≤ t < end`
(minutes-of-day reading of the New York local time) for a normal window and
`t ≥ start ∨ t < end` for an inverted window, and the overnight
(22:00, 02:00) examples 23:30/01:30/10:00/02:00/22:00 classify as
true/true/false/false/true. -/
theorem C5_in_time_window_semantics :
    (∀ (index : DTIndex) (s e : TimeHM),
        s.2 < 60 → e.2 < 60 → (∀ t ∈ idx_est_times index, t.2 < 60) →
        (toMin s ≤ toMin e →
          in_time_window index s e = (idx_est_times index).map
            (fun t => decide (toMin s ≤ toMin t ∧ toMin t < toMin e)))
        ∧ (toMin e < toMin s →
          in_time_window index s e = (idx_est_times index).map
            (fun t => decide (toMin s ≤ toMin t ∨ toMin t < toMin e))))
    ∧ in_time_window (DTIndex.naive
        [⟨2023, 1, 15, 23, 30⟩, ⟨2023, 1, 16, 1, 30⟩, ⟨2023, 1, 16, 10, 0⟩,
         ⟨2023, 1, 16, 2, 0⟩, ⟨2023, 1, 15, 22, 0⟩]) (22, 0) (2, 0) =
      [true, true, false, false, true] := by
  constructor
  · intro index s e hs he hts
    constructor
    · intro h
      simp only [in_time_window]
      split_ifs with hif
      · apply List.map_congr_left
        intro t ht
        rw [timeLe_eq_decide s t hs (hts t ht), timeLt_eq_decide t e (hts t ht) he,
          ← Bool.decide_and]
      · rw [timeLe_eq_decide s e hs he] at hif
        simp only [decide_eq_true_eq] at hif
        exact absurd h hif
    · intro h
      simp only [in_time_window]
      split_ifs with hif
      · rw [timeLe_eq_decide s e hs he] at hif
        simp only [decide_eq_true_eq] at hif
        omega
      · apply List.map_congr_left
        intro t ht
        rw [timeLe_eq_decide s t hs (hts t ht), timeLt_eq_decide t e (hts t ht) he,
          ← Bool.decide_or]
  · decide

/-- C5 witness: the normal-window characterization applied to a concrete
one-element naive index in the (09:30, 10:00) window. -/
theorem C5_witness :
    in_time_window (DTIndex.naive [⟨2023, 1, 16, 9, 45⟩]) (9, 30) (10, 0) =
      (idx_est_times (DTIndex.naive [⟨2023, 1, 16, 9, 45⟩])).map
        (fun t => decide (toMin (9, 30) ≤ toMin t ∧ toMin t < toMin (10, 0))) :=
  (C5_in_time_window_semantics.1 (DTIndex.naive [⟨2023, 1, 16, 9, 45⟩]) (9, 30) (10, 0)
    (by norm_num) (by norm_num) (by decide)).1 (by norm_num [toMin])

/-- C3 counterexample: the two session-membership checks disagree on the end
bound — `get_session_filter` reports 10:00 INSIDE the (09:30, 10:00) window
(its end bound is inclusive), and `in_time_window` reports a timestamp
exactly at start OUTSIDE the degenerate normal window (10:00, 10:00) — so
the claim's "end excluded by both checks, start included for normal
windows" fails as stated. -/
theorem C3_counterexample :
    get_session_filter (10, 0) (9, 30) (10, 0) = true
    ∧ in_time_window (DTIndex.naive [⟨2023, 1, 16, 10, 0⟩]) (10, 0) (10, 0) = [false] := by
  constructor <;> decide

/-- C3 (amended): `in_time_window` excludes a timestamp exactly at `end`
for every window (normal or overnight) and includes one exactly at `start`
for normal windows with start strictly before end; `get_session_filter`, by
contrast, has INCLUSIVE end semantics: for its normal windows both a
timestamp at `end` and one at `start` are inside. -/
theorem C3_amended_thm :
    (∀ (dt : NaiveDT) (s e : TimeHM), (dt.hour, dt.minute) = e →
        in_time_window (DTIndex.naive [dt]) s e = [false])
    ∧ (∀ (dt : NaiveDT) (s e : TimeHM), (dt.hour, dt.minute) = s → timeLt s e = true →
        in_time_window (DTIndex.naive [dt]) s e = [true])
    ∧ (∀ s e : TimeHM, timeLe s e = true → get_session_filter e s e = true)
    ∧ (∀ s e : TimeHM, timeLe s e = true → get_session_filter s s e = true) := by
  refine ⟨?_, ?_, ?_, ?_⟩
  · intro dt s e hd
    simp only [in_time_window, idx_est_times, List.map_cons, List.map_nil, hd]
    split_ifs with hif
    · simp [timeLt_irrefl]
    · have hfalse : timeLe s e = false := by simpa using hif
      simp [timeLt_irrefl, hfalse]
  · intro dt s e hd hlt
    have hle : timeLe s e = true := by
      simp only [timeLt, decide_eq_true_eq] at hlt
      simp only [timeLe, decide_eq_true_eq]
      omega
    simp only [in_time_window, idx_est_times, List.map_cons, List.map_nil, hd]
    rw [if_pos hle]
    simp [timeLe_refl, hlt]
  · intro s e h
    simp [get_session_filter, h, timeLe_refl]
  · intro s e h
    simp [get_session_filter, h, timeLe_refl]

/-- C3 witness: the amended bounds applied to the (09:30, 10:00) window —
`in_time_window` excludes 10:00 and includes 09:30, `get_session_filter`
includes both 10:00 and 09:30. -/
theorem C3_witness :
    in_time_window (DTIndex.naive [⟨2023, 1, 16, 10, 0⟩]) (9, 30) (10, 0) = [false]
    ∧ in_time_window (DTIndex.naive [⟨2023, 1, 16, 9, 30⟩]) (9, 30) (10, 0) = [true]
    ∧ get_session_filter (10, 0) (9, 30) (10, 0) = true
    ∧ get_session_filter (9, 30) (9, 30) (10, 0) = true :=
  ⟨C3_amended_thm.1 ⟨2023, 1, 16, 10, 0⟩ (9, 30) (10, 0) rfl,
   C3_amended_thm.2.1 ⟨2023, 1, 16, 9, 30⟩ (9, 30) (10, 0) rfl (by decide),
   C3_amended_thm.2.2.1 (9, 30) (10, 0) (by decide),
   C3_amended_thm.2.2.2 (9, 30) (10, 0) (by decide)⟩

/-- C2 counterexample: the naive timestamp 2023-01-15 17:00 is classified by
its own wall clock (17:00 New York — outside the (12:00, 13:00) window),
whereas the same civil datetime interpreted as a UTC instant converts to
12:00 New York and is classified inside; so `in_time_window` does NOT treat
naive timestamps as UTC. -/
theorem C2_counterexample :
    in_time_window (DTIndex.naive [⟨2023, 1, 15, 17, 0⟩]) (12, 0) (13, 0) = [false]
    ∧ in_time_window (DTIndex.tzutc [⟨2023, 1, 15, 17, 0⟩]) (12, 0) (13, 0) = [true] := by
  constructor <;> decide

/-- C2 (amended): `in_time_window` localizes a naive index directly to
America/New_York, classifying each naive timestamp by its own wall-clock
time — the classification is invariant under replacing every stamp's date
by 2000-01-01, so no date-dependent UTC offset or DST rule is applied — and
the treat-naive-as-UTC-and-convert behavior belongs to
`ensure_est_timezone` (the loader path), which maps every naive stamp
through the UTC → New York conversion. -/
theorem C2_amended_thm :
    (∀ (stamps : List NaiveDT) (s e : TimeHM),
        in_time_window (DTIndex.naive stamps) s e =
          in_time_window (DTIndex.naive (stamps.map
            (fun dt => { year := 2000, month := 1, day := 1,
                         hour := dt.hour, minute := dt.minute }))) s e)
    ∧ (∀ stamps : List NaiveDT,
        ensure_est_timezone (DTIndex.naive stamps) = stamps.map utcToNYHM)
    ∧ in_time_window (DTIndex.naive [⟨2023, 1, 15, 17, 0⟩]) (17, 0) (18, 0) = [true] := by
  refine ⟨?_, fun _ => rfl, by decide⟩
  intro stamps s e
  simp only [in_time_window, idx_est_times, List.map_map]
  rfl

end ICTAgent
